import Mathlib

/-!
Shallow embedding of the Fit-Check virtual try-on application.

The state logic of the app lives in `App.tsx` (src/unnamed/part_000): a custom
undo/redo container `useHistoryState`, an `AppState` record threaded through
the handlers `handleItemSelect`, `handlePoseSelect`, `handleSaveOutfit`,
`handleLoadOutfit`, `handleReorderGarments` and `updateAccessoryLayer`, plus
the service layer `geminiService.ts` (`handleApiResponse`,
`generateStyleScore`) and the `handleItemClick` guard of the wardrobe panel
(`WardrobeModal.tsx`).

The remote generative-image service is opaque; we model it as an oracle
`Api : ApiCall → Except String String` mapping each request to either the
generated data URL or a thrown error message.  JavaScript objects used as
string-keyed maps (`poseImages`) are modelled as insertion-ordered
association lists, matching JS property-insertion order, so that
`Object.values(m)[0]` is the head of the value list.  JS falsiness of
strings (`!s` true for `""`, `null`, `undefined`) is modelled by
`truthyStr` on `Option String`.
-/

namespace FitCheck

/-- The `POSE_INSTRUCTIONS` list from App.tsx. -/
def POSE_INSTRUCTIONS : List String := [
  "Full frontal view, hands on hips",
  "Slightly turned, 3/4 view",
  "Side profile view",
  "Jumping in the air, mid-action shot",
  "Walking towards camera",
  "Leaning against a wall"
]

/-- Read access `POSE_INSTRUCTIONS[i]`; out-of-range access (JS `undefined`) does not
occur on the claimed paths, we default to `""`. -/
def poseInstructionAt (i : Nat) : String := POSE_INSTRUCTIONS.getD i ("")

/-- Record `WardrobeItem` from types.ts, as used by every file present:
`id`, `name`, `url` and `type` (`"garment"` or `"accessory"`). -/
structure WardrobeItem where
  id : String
  name : String
  url : String
  type : String
  deriving Repr, DecidableEq

/-- Record `OutfitLayer` from types.ts as used in App.tsx: an optional item
(`null` for the base-model layer) and the `poseImages` object, a
string-keyed map from pose instruction to generated image URL,
modelled as an insertion-ordered association list. -/
structure OutfitLayer where
  item : Option WardrobeItem
  poseImages : List (String × String)
  deriving Repr, DecidableEq

/-- The JS object lookup `m[k]` on a `poseImages` map. -/
def lookupPose (m : List (String × String)) (k : String) : Option String :=
  (m.find? (fun p => p.1 == k)).map Prod.snd

/-- The JS property assignment `m[k] = v`: overwrite in place if the key is
present, else append (JS keeps insertion order for string keys). -/
def setPose (m : List (String × String)) (k v : String) : List (String × String) :=
  if m.any (fun p => p.1 == k) then
    m.map (fun p => if p.1 == k then (k, v) else p)
  else m ++ [(k, v)]

/-- The expression `Object.values(layer.poseImages)[0]`. -/
def firstPoseImage (l : OutfitLayer) : Option String :=
  (l.poseImages.map Prod.snd).head?

/-- The JS string falsiness test: `undefined`, `null` and `""` are falsy.  Sends a
falsy value to `none`. -/
def truthyStr (o : Option String) : Option String :=
  o.bind (fun v => if v == "" then none else some v)

/-- The JS `s.startsWith(pre)` test, written over character lists so
that it evaluates by kernel reduction. -/
def strStartsWith (s pre : String) : Bool := pre.data.isPrefixOf s.data

/-- The JS `s.trim()`, written over character lists so that it
evaluates by kernel reduction. -/
def strTrim (s : String) : String :=
  ⟨((s.data.dropWhile Char.isWhitespace).reverse.dropWhile Char.isWhitespace).reverse⟩

/-- Record `AppState` from App.tsx: the record kept inside the undo/redo
container. -/
structure AppState where
  modelImageUrl : Option String
  garmentHistory : List OutfitLayer
  currentGarmentIndex : Nat
  activeAccessories : List WardrobeItem
  generatedAccessoryImageUrl : Option String
  currentPoseIndex : Nat
  deriving Repr, DecidableEq

/-! ### The `useHistoryState` undo/redo container (App.tsx lines 60-102)

`currentIndex` is a JS number that the code moves with `+1`/`-1` under
guards; it is modelled as an `Int` so that out-of-range moves produced by
the code are represented faithfully rather than clamped. -/

/-- The state pair of `useHistoryState`. -/
structure HistoryState (T : Type) where
  history : List T
  currentIndex : Int
  deriving Repr, DecidableEq

/-- Function `undo`: `if (currentIndex > 0) setCurrentIndex(prevIndex => prevIndex - 1)`. -/
def undo {T : Type} (h : HistoryState T) : HistoryState T :=
  if 0 < h.currentIndex then { h with currentIndex := h.currentIndex - 1 } else h

/-- Function `redo` exactly as written in the source:
`if (currentIndex < history.length - 1) setCurrentIndex(prevIndex => prevIndex - 1)`.
Note the body decrements. -/
def redo {T : Type} (h : HistoryState T) : HistoryState T :=
  if h.currentIndex < (h.history.length : Int) - 1 then
    { h with currentIndex := h.currentIndex - 1 }
  else h

/-- Flag `canUndo = currentIndex > 0`. -/
def canUndo {T : Type} (h : HistoryState T) : Bool := 0 < h.currentIndex

/-- Flag `canRedo = currentIndex < history.length - 1`. -/
def canRedo {T : Type} (h : HistoryState T) : Bool :=
  h.currentIndex < (h.history.length : Int) - 1

/-! ### The opaque generation service

Each remote request made by App.tsx is one of the three image-generation
calls routed through `geminiService.ts`.  (The item `File` passed to
`generateGarmentTryOnImage` is always obtained from the URL of the `WardrobeItem`, so the call is identified by the base image and the item.) -/

/-- A request to the external generative-image service. -/
inductive ApiCall where
  | garmentTryOn (baseImageUrl : String) (item : WardrobeItem)
  | accessoryTryOn (baseImageUrl : String) (accessories : List WardrobeItem)
  | poseVariation (baseImageUrl : String) (poseInstruction : String)
  deriving Repr, DecidableEq

/-- Oracle for the opaque service: the generated data URL on success,
the thrown error message on failure. -/
def Api : Type := ApiCall → Except String String

/-- Outcome of running a handler: the `AppState` after the run, the
remote calls issued, the error banner after the run (the handlers begin
with `setError(null)`, so this is the full error state assuming it was
clear before), and the loading flag and message after the `finally`
block. -/
structure HandlerResult where
  state : AppState
  calls : List ApiCall
  error : Option String
  isLoading : Bool
  loadingMessage : String
  deriving Repr, DecidableEq

/-- A handler path that returns before touching anything. -/
def noopResult (s : AppState) : HandlerResult :=
  { state := s, calls := [], error := none, isLoading := false, loadingMessage := "" }

/-- Modelled from the spec: `getFriendlyErrorMessage` lives in
`lib/utils.ts`, which is not among the provided sources.  The spec
describes failure handling as "simple try/catch-and-display-error": the
thrown error is turned into a friendly message using the per-call
fallback description passed at each catch site.  We model the conversion
as pairing the fallback description with the underlying error text. -/
def getFriendlyErrorMessage (err : String) (fallback : String) : String :=
  fallback ++ ": " ++ err

/-! ### Derived views of the state (App.tsx `useMemo` blocks) -/

/-- Memo `activeGarmentLayers = garmentHistory.slice(0, currentGarmentIndex + 1)`. -/
def activeGarmentLayers (s : AppState) : List OutfitLayer :=
  s.garmentHistory.take (s.currentGarmentIndex + 1)

/-- Memo `displayImageUrl` (App.tsx lines 186-194): the accessory overlay if
present, else the image of the current layer for the current pose (falling
back to the first pose image of the layer), else the bare model image when
there is no current layer. -/
def displayImageUrl (s : AppState) : Option String :=
  match s.garmentHistory.get? s.currentGarmentIndex with
  | none => s.modelImageUrl
  | some layer =>
      let base := (lookupPose layer.poseImages (poseInstructionAt s.currentPoseIndex)).orElse
        (fun _ => firstPoseImage layer)
      s.generatedAccessoryImageUrl.orElse (fun _ => base)

/-- Base image resolution of `handleItemSelect` (App.tsx line 282):
the display image when it is a data URL, else the model image. -/
def baseGarmentImage (s : AppState) : Option String :=
  match displayImageUrl s with
  | some url => if strStartsWith url ("data:") then some url else s.modelImageUrl
  | none => s.modelImageUrl

/-- Base image of `updateAccessoryLayer` when no override is given
(App.tsx line 233): the first pose image of the current layer, else the model
image when there is no current layer. -/
def accessoryBaseImage (s : AppState) : Option String :=
  match s.garmentHistory.get? s.currentGarmentIndex with
  | some layer => firstPoseImage layer
  | none => s.modelImageUrl

/-! ### `updateAccessoryLayer` (App.tsx lines 231-258) -/

/-- Handler `updateAccessoryLayer(accessories, overrideBaseImageUrl?)`.  Early
returns: falsy base image; empty accessory list (clears the overlay with
no call).  Otherwise one `generateAccessoryTryOnImage` call; on success
the overlay URL and the accessory list are committed, on failure the
state is untouched and the error banner is set. -/
def updateAccessoryLayer (api : Api) (s : AppState) (accessories : List WardrobeItem)
    (overrideBaseImageUrl : Option String) : HandlerResult :=
  let baseImageUrl := overrideBaseImageUrl.orElse (fun _ => accessoryBaseImage s)
  match truthyStr baseImageUrl with
  | none => noopResult s
  | some base =>
      if accessories.isEmpty then
        { state := { s with generatedAccessoryImageUrl := none, activeAccessories := [] },
          calls := [], error := none, isLoading := false, loadingMessage := "" }
      else
        match api (.accessoryTryOn base accessories) with
        | .ok newImageUrl =>
            { state := { s with generatedAccessoryImageUrl := some newImageUrl,
                                activeAccessories := accessories },
              calls := [.accessoryTryOn base accessories],
              error := none, isLoading := false, loadingMessage := "" }
        | .error e =>
            { state := s,
              calls := [.accessoryTryOn base accessories],
              error := some (getFriendlyErrorMessage e ("Failed to apply accessories")),
              isLoading := false, loadingMessage := "" }

/-! ### `handleItemSelect` (App.tsx lines 281-334) -/

/-- The replay test (App.tsx lines 286-287): the layer after the current
one exists and holds the very item being selected. -/
def nextLayerMatches (s : AppState) (itemInfo : WardrobeItem) : Bool :=
  match s.garmentHistory.get? (s.currentGarmentIndex + 1) with
  | some nl =>
      match nl.item with
      | some it => it.id == itemInfo.id
      | none => false
  | none => false

/-- Handler `handleItemSelect(itemFile, itemInfo)`.  Guard: falsy base image or
loading.  Garment branch: replay the cached next layer when it holds the
same item, else one `generateGarmentTryOnImage` call; on success the
redone-over branch is truncated and the new layer appended.  Accessory
branch: toggle the accessory and rebuild the overlay.  (The companion
`setWardrobe` touches the wardrobe list, which is outside the undo/redo
state and not modelled.) -/
def handleItemSelect (api : Api) (s : AppState) (isLoading : Bool)
    (itemInfo : WardrobeItem) : HandlerResult :=
  match truthyStr (baseGarmentImage s) with
  | none => noopResult s
  | some base =>
      if isLoading then noopResult s
      else if itemInfo.type == "garment" then
        if nextLayerMatches s itemInfo then
          { state := { s with currentGarmentIndex := s.currentGarmentIndex + 1,
                              currentPoseIndex := 0,
                              activeAccessories := [],
                              generatedAccessoryImageUrl := none },
            calls := [], error := none, isLoading := false, loadingMessage := "" }
        else
          match api (.garmentTryOn base itemInfo) with
          | .ok newImageUrl =>
              let newLayer : OutfitLayer :=
                { item := some itemInfo,
                  poseImages := [(poseInstructionAt s.currentPoseIndex, newImageUrl)] }
              { state := { s with
                  garmentHistory := s.garmentHistory.take (s.currentGarmentIndex + 1) ++ [newLayer],
                  currentGarmentIndex := s.currentGarmentIndex + 1,
                  activeAccessories := [],
                  generatedAccessoryImageUrl := none },
                calls := [.garmentTryOn base itemInfo],
                error := none, isLoading := false, loadingMessage := "" }
          | .error e =>
              { state := s,
                calls := [.garmentTryOn base itemInfo],
                error := some (getFriendlyErrorMessage e ("Failed to apply item")),
                isLoading := false, loadingMessage := "" }
      else
        let isAlreadyActive := s.activeAccessories.any (fun acc => acc.id == itemInfo.id)
        let newAccessories :=
          if isAlreadyActive then s.activeAccessories.filter (fun acc => acc.id != itemInfo.id)
          else s.activeAccessories ++ [itemInfo]
        updateAccessoryLayer api s newAccessories none

/-! ### `handlePoseSelect` (App.tsx lines 348-391) -/

/-- Handler `handlePoseSelect(newIndex)`.  Guard: loading, empty history, or the
already-current pose index.  Cached branch: set the pose index (and
rebuild the accessory overlay from the cached image when accessories are
active).  Uncached branch: one `generatePoseVariation` call on the
first pose image of the layer; on success the image is stored in the
`poseImages` of the layer under the pose instruction and the pose index set (then the
overlay is rebuilt when accessories are active); on failure the state is
untouched.  (When `currentGarmentIndex` is out of range the JS code
throws a `TypeError` before mutating anything; modelled as the untouched
state.) -/
def handlePoseSelect (api : Api) (s : AppState) (isLoading : Bool)
    (newIndex : Nat) : HandlerResult :=
  if isLoading || s.garmentHistory.isEmpty || newIndex == s.currentPoseIndex then
    noopResult s
  else
    let poseInstruction := poseInstructionAt newIndex
    match s.garmentHistory.get? s.currentGarmentIndex with
    | none => noopResult s
    | some currentLayer =>
        match truthyStr (lookupPose currentLayer.poseImages poseInstruction) with
        | some cachedImage =>
            let s1 := { s with currentPoseIndex := newIndex }
            if s.activeAccessories.isEmpty then
              { state := s1, calls := [], error := none,
                isLoading := false, loadingMessage := "" }
            else
              updateAccessoryLayer api s1 s.activeAccessories (some cachedImage)
        | none =>
            match truthyStr (firstPoseImage currentLayer) with
            | none => noopResult s
            | some baseImageForPoseChange =>
                match api (.poseVariation baseImageForPoseChange poseInstruction) with
                | .ok newImageUrl =>
                    let updatedLayer :=
                      { currentLayer with
                        poseImages := setPose currentLayer.poseImages poseInstruction newImageUrl }
                    let s1 := { s with
                      garmentHistory := s.garmentHistory.set s.currentGarmentIndex updatedLayer,
                      currentPoseIndex := newIndex }
                    if s.activeAccessories.isEmpty then
                      { state := s1,
                        calls := [.poseVariation baseImageForPoseChange poseInstruction],
                        error := none, isLoading := false, loadingMessage := "" }
                    else
                      let r := updateAccessoryLayer api s1 s.activeAccessories (some newImageUrl)
                      { state := r.state,
                        calls := .poseVariation baseImageForPoseChange poseInstruction :: r.calls,
                        error := r.error, isLoading := false, loadingMessage := "" }
                | .error e =>
                    { state := s,
                      calls := [.poseVariation baseImageForPoseChange poseInstruction],
                      error := some (getFriendlyErrorMessage e ("Failed to change pose")),
                      isLoading := false, loadingMessage := "" }

/-! ### `handleSaveOutfit` / `handleLoadOutfit` (App.tsx lines 393-454) -/

/-- One entry of the stored `garmentHistory` of a saved outfit: the
item of the layer and `Object.values(layer.poseImages)[0]`. -/
structure SavedLayer where
  item : Option WardrobeItem
  imageUrl : Option String
  deriving Repr, DecidableEq

/-- Record `SavedOutfit` (the fields the load path reads; the `id`, `name` and
`wardrobe` bookkeeping are presentation metadata outside the claims). -/
structure SavedOutfit where
  thumbnailUrl : String
  modelImageUrl : String
  garmentHistory : List SavedLayer
  activeAccessories : List WardrobeItem
  deriving Repr, DecidableEq

/-- Handler `handleSaveOutfit`: `none` when the guard rejects
(`!modelImageUrl || !displayImageUrl || (currentGarmentIndex === 0 &&
activeAccessories.length === 0)`), else the recorded outfit. -/
def handleSaveOutfit (s : AppState) : Option SavedOutfit :=
  match truthyStr s.modelImageUrl, truthyStr (displayImageUrl s) with
  | some model, some thumb =>
      if s.currentGarmentIndex == 0 && s.activeAccessories.isEmpty then none
      else some
        { thumbnailUrl := thumb,
          modelImageUrl := model,
          garmentHistory := (activeGarmentLayers s).map
            (fun layer => { item := layer.item, imageUrl := firstPoseImage layer }),
          activeAccessories := s.activeAccessories }
  | _, _ => none

/-- The state `handleLoadOutfit` passes to `reset`: each stored layer is
rebuilt with its single saved image under `POSE_INSTRUCTIONS[0]`, the
garment index points at the last rebuilt layer, the pose index is 0 and
the overlay URL is cleared (it is regenerated afterwards when the saved
outfit had accessories). -/
def handleLoadOutfit (o : SavedOutfit) : AppState :=
  let reconstructedHistory : List OutfitLayer := o.garmentHistory.map
    (fun storedLayer =>
      { item := storedLayer.item,
        poseImages :=
          match storedLayer.imageUrl with
          | some u => [(POSE_INSTRUCTIONS.headD (""), u)]
          | none => [] })
  { modelImageUrl := some o.modelImageUrl,
    garmentHistory := reconstructedHistory,
    currentGarmentIndex := reconstructedHistory.length - 1,
    currentPoseIndex := 0,
    activeAccessories := o.activeAccessories,
    generatedAccessoryImageUrl := none }

/-! ### `handleReorderGarments` (App.tsx lines 471-520) -/

/-- The regeneration loop (App.tsx lines 486-499): apply each reordered
item of each layer on top of the previous image.  Returns the calls issued and,
on success, the rebuilt layers together with the final image.  A `null`
item (`layerToApply.item!`) would throw inside the `try`; modelled as an
error. -/
def regenerateLayers (api : Api) : String → List OutfitLayer →
    List ApiCall × Except String (List OutfitLayer × String)
  | currentImage, [] => ([], .ok ([], currentImage))
  | currentImage, layerToApply :: rest =>
      match layerToApply.item with
      | none => ([], .error ("TypeError: layer item is null"))
      | some itemInfo =>
          let call := ApiCall.garmentTryOn currentImage itemInfo
          match api call with
          | .error e => ([call], .error e)
          | .ok newImageUrl =>
              let (calls, res) := regenerateLayers api newImageUrl rest
              (call :: calls,
               res.map (fun p =>
                 ({ item := some itemInfo,
                    poseImages := [(POSE_INSTRUCTIONS.headD (""), newImageUrl)] } :: p.1, p.2)))

/-- Handler `handleReorderGarments(reorderedItems)`.  No-op when the id sequence
of `[garmentHistory[0], ...reorderedItems]` equals the current one.
Otherwise the garment branch is regenerated sequentially from the model
image; on success it replaces `garmentHistory`, the garment index points
at the last layer and the pose index is 0 (the overlay is rebuilt from
the final image when accessories are active); on failure the state is
untouched.  (An empty `garmentHistory` or `null` model image would throw
in JS before or inside the `try`; modelled as the untouched state with
the error banner in the latter case.) -/
def handleReorderGarments (api : Api) (s : AppState)
    (reorderedItems : List OutfitLayer) : HandlerResult :=
  match s.garmentHistory.head? with
  | none => noopResult s
  | some baseLayer =>
      let newOrderedHistory := baseLayer :: reorderedItems
      if newOrderedHistory.map (fun l => l.item.map (fun it => it.id)) ==
          s.garmentHistory.map (fun l => l.item.map (fun it => it.id)) then
        noopResult s
      else
        match s.modelImageUrl with
        | none =>
            if reorderedItems.isEmpty then
              { state := { s with garmentHistory := [baseLayer],
                                  currentGarmentIndex := 0, currentPoseIndex := 0 },
                calls := [], error := none, isLoading := false, loadingMessage := "" }
            else
              { state := s, calls := [],
                error := some (getFriendlyErrorMessage ("Invalid data URL")
                  ("Failed to reorder outfit. Reverting to previous order.")),
                isLoading := false, loadingMessage := "" }
        | some modelImage =>
            let (calls, res) := regenerateLayers api modelImage reorderedItems
            match res with
            | .error e =>
                { state := s, calls := calls,
                  error := some (getFriendlyErrorMessage e
                    ("Failed to reorder outfit. Reverting to previous order.")),
                  isLoading := false, loadingMessage := "" }
            | .ok (layers, finalGarmentImage) =>
                let regeneratedLayers := baseLayer :: layers
                let s1 := { s with
                  garmentHistory := regeneratedLayers,
                  currentGarmentIndex := regeneratedLayers.length - 1,
                  currentPoseIndex := 0 }
                if s.activeAccessories.isEmpty then
                  { state := s1, calls := calls, error := none,
                    isLoading := false, loadingMessage := "" }
                else
                  let r := updateAccessoryLayer api s1 s.activeAccessories (some finalGarmentImage)
                  { state := r.state, calls := calls ++ r.calls, error := r.error,
                    isLoading := false, loadingMessage := "" }

/-- Claim-side chain, following the words of C8: starting from the base
model image, each try-on call consumes the previously generated image, in
the new order. -/
def chainTryOnImages (api : Api) : String → List WardrobeItem → Except String (List String)
  | _, [] => .ok []
  | base, it :: rest =>
      match api (.garmentTryOn base it) with
      | .error e => .error e
      | .ok img => (chainTryOnImages api img rest).map (fun imgs => img :: imgs)

/-! ### `generateStyleScore` (geminiService.ts lines 138-194)

The text-model response is opaque; we model the outcome of
`JSON.parse(response.text.trim())` followed by the structure check
(result.score of type number and result.critique of type string):
either a valid pair, or anything else (parse failure or wrong shape —
both end in the same rethrown message).  JS numbers are modelled as
rationals (the claimed clamping behaviour is order-theoretic). -/

/-- Outcome of parsing the style-score API response text. -/
inductive ParsedStyleResponse where
  | valid (score : Rat) (critique : String)
  | invalid
  deriving Repr, DecidableEq

/-- The returned `{ score, critique }` pair. -/
structure StyleScore where
  score : Rat
  critique : String
  deriving Repr, DecidableEq

/-- Function `generateStyleScore(items)`, given the parsed response of the one
API call it may make.  The first component records whether the call was
made. -/
def generateStyleScore (items : List WardrobeItem) (response : ParsedStyleResponse) :
    Bool × Except String StyleScore :=
  if items.isEmpty then
    (false, .ok { score := 0, critique := "Add some items to get a style score!" })
  else
    match response with
    | .valid score critique =>
        (true, .ok { score := max 1 (min 10 score), critique := critique })
    | .invalid =>
        (true, .error ("The AI returned an unexpected format for the style score. Please try again."))

/-! ### `handleApiResponse` (geminiService.ts lines 33-57) -/

/-- The `inlineData` payload of a response part. -/
structure InlineData where
  mimeType : String
  data : String
  deriving Repr, DecidableEq

/-- A response part: an image payload and/or text. -/
structure ResponsePart where
  inlineData : Option InlineData
  text : Option String
  deriving Repr, DecidableEq

/-- The `candidate.content` object with its optional `parts` array. -/
structure CandidateContent where
  parts : Option (List ResponsePart)
  deriving Repr, DecidableEq

/-- One response candidate. -/
structure Candidate where
  content : Option CandidateContent
  finishReason : Option String
  deriving Repr, DecidableEq

/-- The `response.promptFeedback` object. -/
structure PromptFeedback where
  blockReason : Option String
  blockReasonMessage : Option String
  deriving Repr, DecidableEq

/-- The shape of `GenerateContentResponse` read by `handleApiResponse`. -/
structure GenResponse where
  promptFeedback : Option PromptFeedback
  candidates : Option (List Candidate)
  text : Option String
  deriving Repr, DecidableEq

/-- The expression `candidate.content?.parts?.find(part => part.inlineData)?.inlineData`. -/
def candidateImage (c : Candidate) : Option InlineData :=
  match c.content with
  | none => none
  | some content =>
      match content.parts with
      | none => none
      | some parts => (parts.find? (fun p => p.inlineData.isSome)).bind (fun p => p.inlineData)

/-- The for-loop of `handleApiResponse`: the image payload of the first
matching candidate, scanning candidates in order. -/
def scanCandidates : List Candidate → Option InlineData
  | [] => none
  | c :: rest =>
      match candidateImage c with
      | some d => some d
      | none => scanCandidates rest

/-- The data URL `data:mimeType;base64,data`. -/
def inlineDataUrl (d : InlineData) : String :=
  "data:" ++ d.mimeType ++ ";base64," ++ d.data

/-- Function `handleApiResponse(response)`: throw on a (truthy) block reason;
else return the first image payload as a data URL; else throw a
finish-reason message when `finishReason` is truthy and not the string STOP,
else the generic no-image message (quoting trimmed response text when
present). -/
def handleApiResponse (response : GenResponse) : Except String String :=
  match truthyStr (response.promptFeedback.bind (fun pf => pf.blockReason)) with
  | some blockReason =>
      .error ("Request was blocked. Reason: " ++ blockReason ++ ". " ++
        ((response.promptFeedback.bind (fun pf => pf.blockReasonMessage)).getD ("")))
  | none =>
      match scanCandidates (response.candidates.getD []) with
      | some d => .ok (inlineDataUrl d)
      | none =>
          let finishReason :=
            truthyStr ((response.candidates.bind (fun cs => cs.head?)).bind
              (fun c => c.finishReason))
          match finishReason with
          | some fr =>
              if fr != "STOP" then
                .error ("Image generation stopped unexpectedly. Reason: " ++ fr ++
                  ". This often relates to safety settings.")
              else
                .error (noImageMessage response)
          | none => .error (noImageMessage response)
where
  /-- The generic no-image message of lines 54-55. -/
  noImageMessage (response : GenResponse) : String :=
    let textFeedback := strTrim ((response.text).getD (""))
    "The AI model did not return an image. " ++
      (if textFeedback != "" then
        "The model responded with text: \"" ++ textFeedback ++ "\""
      else
        "This can happen due to safety filters or if the request is too complex. Please try a different image.")

/-! ### `handleItemClick` (WardrobeModal.tsx lines 23-37) -/

/-- Handler `handleItemClick(item)`: the item handed to `onItemSelect`, or
`none` when the click is swallowed (loading, or re-selecting an active
garment). -/
def handleItemClick (isLoading : Bool) (activeItemIds : List String)
    (item : WardrobeItem) : Option WardrobeItem :=
  if isLoading then none
  else if item.type == "garment" && activeItemIds.contains item.id then none
  else some item

/-! ### Sample data for concrete evaluations -/

/-- A garment from the default wardrobe. -/
def sampleGarmentA : WardrobeItem :=
  { id := "gemini-sweat", name := "Gemini Sweat", url := "https://w/sweat.png", type := "garment" }

/-- A second garment from the default wardrobe. -/
def sampleGarmentB : WardrobeItem :=
  { id := "blazer-jacket", name := "Blazer Jacket", url := "https://w/blazer.png", type := "garment" }

/-- An accessory from the default wardrobe. -/
def sampleAccessoryA : WardrobeItem :=
  { id := "beanie-hat", name := "Beanie Hat", url := "https://w/beanie.png", type := "accessory" }

/-- A second accessory from the default wardrobe. -/
def sampleAccessoryB : WardrobeItem :=
  { id := "sunglasses", name := "Sunglasses", url := "https://w/sunnies.png", type := "accessory" }

/-- A generated model image. -/
def sampleModelUrl : String := "data:image/png;base64,MODEL"

/-- A generated try-on image. -/
def sampleImgA : String := "data:image/png;base64,AAA"

/-- Another generated image. -/
def sampleImgB : String := "data:image/png;base64,BBB"

/-- Another generated image. -/
def sampleImgC : String := "data:image/png;base64,CCC"

/-- The base-model layer as built by `handleModelFinalized`. -/
def sampleBaseLayer : OutfitLayer :=
  { item := none, poseImages := [("Full frontal view, hands on hips", sampleModelUrl)] }

/-- A garment layer for `sampleGarmentA`. -/
def sampleLayerA : OutfitLayer :=
  { item := some sampleGarmentA, poseImages := [("Full frontal view, hands on hips", sampleImgA)] }

/-- State right after the model was finalized. -/
def sampleState0 : AppState :=
  { modelImageUrl := some sampleModelUrl, garmentHistory := [sampleBaseLayer],
    currentGarmentIndex := 0, activeAccessories := [],
    generatedAccessoryImageUrl := none, currentPoseIndex := 0 }

/-- State with one garment layer beyond the base, undone back to the base. -/
def sampleStateUndone : AppState :=
  { sampleState0 with garmentHistory := [sampleBaseLayer, sampleLayerA] }

/-- State sitting on the garment layer. -/
def sampleState1 : AppState :=
  { sampleState0 with
    garmentHistory := [sampleBaseLayer, sampleLayerA],
    currentGarmentIndex := 1 }

/-- State on the garment layer with one active accessory. -/
def sampleState1Acc : AppState :=
  { sampleState1 with activeAccessories := [sampleAccessoryA] }

/-- A garment layer for `sampleGarmentB`. -/
def sampleLayerB : OutfitLayer :=
  { item := some sampleGarmentB, poseImages := [("Full frontal view, hands on hips", sampleImgC)] }

/-- State with two garment layers beyond the base. -/
def sampleState2 : AppState :=
  { sampleState0 with
    garmentHistory := [sampleBaseLayer, sampleLayerA, sampleLayerB],
    currentGarmentIndex := 2 }

/-- The outfit record `handleSaveOutfit` produces on `sampleState1`. -/
def sampleSavedOutfit : SavedOutfit :=
  { thumbnailUrl := sampleImgA, modelImageUrl := sampleModelUrl,
    garmentHistory :=
      [{ item := none, imageUrl := some sampleModelUrl },
       { item := some sampleGarmentA, imageUrl := some sampleImgA }],
    activeAccessories := [] }

/-- An oracle that answers every request with the same image. -/
def apiConst : Api := fun _ => .ok sampleImgB

/-- An oracle that fails every request. -/
def apiFail : Api := fun _ => .error ("quota exceeded")

/-- A sample image payload. -/
def sampleInline : InlineData := { mimeType := "image/png", data := "QUFB" }

/-- A response part carrying the image payload. -/
def samplePartImg : ResponsePart := { inlineData := some sampleInline, text := none }

/-- A text-only response part. -/
def samplePartText : ResponsePart := { inlineData := none, text := some ("I cannot do that") }

/-- A candidate whose parts contain an image. -/
def sampleCandidateImg : Candidate :=
  { content := some { parts := some [samplePartText, samplePartImg] },
    finishReason := some ("STOP") }

/-- A candidate with no image part. -/
def sampleCandidateNoImg : Candidate :=
  { content := some { parts := some [samplePartText] },
    finishReason := some ("IMAGE_SAFETY") }

/-- A response blocked by prompt feedback, although an image is present. -/
def sampleRespBlocked : GenResponse :=
  { promptFeedback := some { blockReason := some ("SAFETY"), blockReasonMessage := none },
    candidates := some [sampleCandidateImg],
    text := none }

/-- A response whose second candidate carries the image. -/
def sampleRespImage : GenResponse :=
  { promptFeedback := none,
    candidates := some [sampleCandidateNoImg, sampleCandidateImg],
    text := none }

/-- A response with no image anywhere and a non-STOP finish reason. -/
def sampleRespNoImage : GenResponse :=
  { promptFeedback := none,
    candidates := some [sampleCandidateNoImg],
    text := some ("  blocked  ") }

/-! ## Helper lemmas -/

theorem truthyStr_eq_some {o : Option String} {v : String}
    (h : truthyStr o = some v) : o = some v := by
  cases o with
  | none => simp [truthyStr] at h
  | some u =>
      by_cases hu : u = ""
      · subst hu; simp [truthyStr] at h
      · simp [truthyStr, hu] at h
        simp [h]

theorem truthyStr_ne_empty {o : Option String} {v : String}
    (h : truthyStr o = some v) : v ≠ "" := by
  cases o with
  | none => simp [truthyStr] at h
  | some u =>
      by_cases hu : u = ""
      · subst hu; simp [truthyStr] at h
      · simp [truthyStr, hu] at h
        simpa [← h] using hu

theorem lookupPose_setPose_of_any (m : List (String × String)) (k v : String)
    (h : m.any (fun p => p.1 == k) = true) :
    lookupPose (m.map (fun p => if p.1 == k then (k, v) else p)) k = some v := by
  induction m with
  | nil => simp at h
  | cons p rest ih =>
      by_cases hp : p.1 == k
      · simp only [List.map_cons, if_pos hp, lookupPose]
        rw [List.find?_cons_of_pos _ (by simp)]
        rfl
      · simp only [List.map_cons, if_neg hp, lookupPose]
        rw [List.find?_cons_of_neg _ (by simpa using hp)]
        have hrest : rest.any (fun p => p.1 == k) = true := by
          simpa [hp] using h
        exact ih hrest

theorem lookupPose_setPose (m : List (String × String)) (k v : String) :
    lookupPose (setPose m k v) k = some v := by
  by_cases h : m.any (fun p => p.1 == k) = true
  · rw [setPose, if_pos h]
    exact lookupPose_setPose_of_any m k v h
  · rw [setPose, if_neg h]
    unfold lookupPose
    rw [List.find?_append]
    have hnone : m.find? (fun p => p.1 == k) = none := by
      refine List.find?_eq_none.mpr ?_
      intro x hx
      intro hpx
      exact h (List.any_eq_true.mpr ⟨x, hx, hpx⟩)
    rw [hnone]
    simp

theorem updateAccessoryLayer_preserves (api : Api) (s : AppState)
    (accessories : List WardrobeItem) (ov : Option String) :
    (updateAccessoryLayer api s accessories ov).state.garmentHistory = s.garmentHistory ∧
    (updateAccessoryLayer api s accessories ov).state.currentGarmentIndex = s.currentGarmentIndex ∧
    (updateAccessoryLayer api s accessories ov).state.currentPoseIndex = s.currentPoseIndex ∧
    (updateAccessoryLayer api s accessories ov).state.modelImageUrl = s.modelImageUrl := by
  simp only [updateAccessoryLayer, noopResult]
  split <;> (try split) <;> (try split) <;> simp

theorem updateAccessoryLayer_calls (api : Api) (s : AppState)
    (accessories : List WardrobeItem) (ov : Option String) (b : String)
    (hb : truthyStr (ov.orElse (fun _ => accessoryBaseImage s)) = some b)
    (hacc : accessories ≠ []) :
    (updateAccessoryLayer api s accessories ov).calls =
      [ApiCall.accessoryTryOn b accessories] := by
  have hie : accessories.isEmpty = false := by
    cases accessories with
    | nil => exact absurd rfl hacc
    | cons a l => rfl
  simp only [updateAccessoryLayer, hb, hie, Bool.false_eq_true, if_false]
  cases api (ApiCall.accessoryTryOn b accessories) <;> rfl

/-! ## Claim theorems -/

/-- **C1** (code bug).  The claim states that `redo` increments
`currentIndex` whenever `currentIndex < history.length - 1`, so that
undo followed by redo restores the pre-undo state and `currentIndex`
stays a valid index.  The `redo` in the source decrements instead: on a
two-entry history at index 0 (where `canRedo` holds) it moves
`currentIndex` to `-1`, an invalid index, and after `undo` from index 1
a `redo` yields index `-1` instead of restoring index 1. -/
theorem C1_redo_decrements :
    canRedo ({ history := [0, 1], currentIndex := 0 } : HistoryState Nat) = true ∧
    (redo ({ history := [0, 1], currentIndex := 0 } : HistoryState Nat)).currentIndex = -1 ∧
    (undo ({ history := [0, 1], currentIndex := 1 } : HistoryState Nat)).currentIndex = 0 ∧
    (redo (undo ({ history := [0, 1], currentIndex := 1 } : HistoryState Nat))).currentIndex = -1 := by
  decide

/-- **C7**.  `generateStyleScore`: on a non-empty item list and a
response parsing to a numeric score with a string critique, it returns
the critique with the score clamped into [1, 10]; on any other
response for a non-empty list it throws; on the empty list it returns
score 0 with a fixed prompt message and makes no API call — and 0 lies
below the advertised 1-to-10 scale. -/
theorem C7_style_score_spec (items : List WardrobeItem)
    (response : ParsedStyleResponse) (sc : Rat) (cr : String) :
    (items ≠ [] → response = .valid sc cr →
      generateStyleScore items response =
        (true, .ok { score := max 1 (min 10 sc), critique := cr }) ∧
      1 ≤ max 1 (min 10 sc) ∧ max 1 (min 10 sc) ≤ (10 : Rat)) ∧
    (items ≠ [] → response = .invalid →
      generateStyleScore items response =
        (true, .error "The AI returned an unexpected format for the style score. Please try again.")) ∧
    (items = [] →
      generateStyleScore items response =
        (false, .ok { score := 0, critique := "Add some items to get a style score!" }) ∧
      ((0 : Rat) < 1)) := by
  refine ⟨?_, ?_, ?_⟩
  · intro hne hv
    subst hv
    refine ⟨by simp [generateStyleScore, hne], le_max_left 1 _, max_le (by norm_num) ?_⟩
    exact min_le_left 10 sc
  · intro hne hv
    subst hv
    simp [generateStyleScore, hne]
  · intro he
    subst he
    exact ⟨by simp [generateStyleScore], by norm_num⟩

/-- Witness for C7 at concrete inputs: the empty list, a parsed score of
42 (clamped to 10), and an unparsable response. -/
theorem C7_witness :
    generateStyleScore [] ParsedStyleResponse.invalid =
      (false, .ok { score := 0, critique := "Add some items to get a style score!" }) ∧
    generateStyleScore [sampleGarmentA] (.valid 42 ("Bold choice.")) =
      (true, .ok { score := 10, critique := "Bold choice." }) ∧
    generateStyleScore [sampleGarmentA] .invalid =
      (true, .error "The AI returned an unexpected format for the style score. Please try again.") := by
  refine ⟨?_, ?_, ?_⟩
  · exact ((C7_style_score_spec [] ParsedStyleResponse.invalid 0 ("")).2.2 rfl).1
  · have h := ((C7_style_score_spec [sampleGarmentA] (.valid 42 ("Bold choice."))
      42 ("Bold choice.")).1 (by simp) rfl).1
    have hmax : max 1 (min 10 (42 : Rat)) = 10 := by norm_num
    rw [hmax] at h
    exact h
  · exact (C7_style_score_spec [sampleGarmentA] ParsedStyleResponse.invalid 0 ("")).2.1
      (by simp) rfl

/-- **C3**.  Selecting a garment whose id equals the item id of the
layer at `currentGarmentIndex + 1` makes no generation call: it only
advances the garment index by one, resets the pose index to 0 and
clears the accessories and the overlay, replaying the cached layer. -/
theorem C3_replay_cached_next_layer (api : Api) (s : AppState)
    (itemInfo : WardrobeItem) (b : String)
    (hbase : truthyStr (baseGarmentImage s) = some b)
    (hg : itemInfo.type = "garment")
    (hnext : nextLayerMatches s itemInfo = true) :
    handleItemSelect api s false itemInfo =
      { state :=
          { s with
            currentGarmentIndex := s.currentGarmentIndex + 1,
            currentPoseIndex := 0,
            activeAccessories := [],
            generatedAccessoryImageUrl := none },
        calls := [], error := none, isLoading := false, loadingMessage := "" } := by
  simp [handleItemSelect, hbase, hg, hnext]

/-- Witness for C3: after an undo back to the base layer, re-selecting
the garment cached in the next layer replays it with no call. -/
theorem C3_witness :
    handleItemSelect apiFail sampleStateUndone false sampleGarmentA =
      { state :=
          { sampleStateUndone with
            currentGarmentIndex := 1,
            currentPoseIndex := 0,
            activeAccessories := [],
            generatedAccessoryImageUrl := none },
        calls := [], error := none, isLoading := false, loadingMessage := "" } := by
  have h := C3_replay_cached_next_layer apiFail sampleStateUndone sampleGarmentA
    sampleModelUrl (by decide) (by decide) (by decide)
  simpa using h

/-- **C2**.  After a successful generation call for a garment that does
not match the next cached layer, `handleItemSelect` truncates
`garmentHistory` to the layers up to and including
`currentGarmentIndex`, appends exactly one new layer holding the
selected item with the generated image under the current pose
instruction, points `currentGarmentIndex` at that new layer (the last
one), and clears the accessories and the overlay. -/
theorem C2_new_garment_truncates_and_appends (api : Api) (s : AppState)
    (itemInfo : WardrobeItem) (b newImageUrl : String)
    (hbase : truthyStr (baseGarmentImage s) = some b)
    (hg : itemInfo.type = "garment")
    (hnext : nextLayerMatches s itemInfo = false)
    (hci : s.currentGarmentIndex < s.garmentHistory.length)
    (hapi : api (.garmentTryOn b itemInfo) = .ok newImageUrl) :
    (handleItemSelect api s false itemInfo).state.garmentHistory =
      s.garmentHistory.take (s.currentGarmentIndex + 1) ++
        [{ item := some itemInfo,
           poseImages := [(poseInstructionAt s.currentPoseIndex, newImageUrl)] }] ∧
    (handleItemSelect api s false itemInfo).state.currentGarmentIndex =
      s.currentGarmentIndex + 1 ∧
    (handleItemSelect api s false itemInfo).state.garmentHistory.get?
        ((handleItemSelect api s false itemInfo).state.currentGarmentIndex) =
      some { item := some itemInfo,
             poseImages := [(poseInstructionAt s.currentPoseIndex, newImageUrl)] } ∧
    (handleItemSelect api s false itemInfo).state.currentGarmentIndex =
      (handleItemSelect api s false itemInfo).state.garmentHistory.length - 1 ∧
    (handleItemSelect api s false itemInfo).state.activeAccessories = [] ∧
    (handleItemSelect api s false itemInfo).state.generatedAccessoryImageUrl = none ∧
    (handleItemSelect api s false itemInfo).calls = [.garmentTryOn b itemInfo] ∧
    (handleItemSelect api s false itemInfo).error = none := by
  have hlen : (s.garmentHistory.take (s.currentGarmentIndex + 1)).length =
      s.currentGarmentIndex + 1 := by
    rw [List.length_take]
    exact Nat.min_eq_left (Nat.succ_le_of_lt hci)
  have hred : handleItemSelect api s false itemInfo =
      { state := { s with
          garmentHistory := s.garmentHistory.take (s.currentGarmentIndex + 1) ++
            [{ item := some itemInfo,
               poseImages := [(poseInstructionAt s.currentPoseIndex, newImageUrl)] }],
          currentGarmentIndex := s.currentGarmentIndex + 1,
          activeAccessories := [],
          generatedAccessoryImageUrl := none },
        calls := [.garmentTryOn b itemInfo],
        error := none, isLoading := false, loadingMessage := "" } := by
    simp [handleItemSelect, hbase, hg, hnext, hapi]
  rw [hred]
  refine ⟨rfl, rfl, ?_, ?_, rfl, rfl, rfl, rfl⟩
  · have hc := List.get?_concat_length (s.garmentHistory.take (s.currentGarmentIndex + 1))
      ({ item := some itemInfo,
         poseImages := [(poseInstructionAt s.currentPoseIndex, newImageUrl)] } : OutfitLayer)
    rw [hlen] at hc
    exact hc
  · show s.currentGarmentIndex + 1 =
      (s.garmentHistory.take (s.currentGarmentIndex + 1) ++ _).length - 1
    simp [hlen]

/-- Witness for C2: adding a second garment on top of the first layer
with a successful generation call. -/
theorem C2_witness :
    (handleItemSelect apiConst sampleState1 false sampleGarmentB).state.garmentHistory =
      [sampleBaseLayer, sampleLayerA,
       { item := some sampleGarmentB,
         poseImages := [("Full frontal view, hands on hips", sampleImgB)] }] ∧
    (handleItemSelect apiConst sampleState1 false sampleGarmentB).state.currentGarmentIndex = 2 ∧
    (handleItemSelect apiConst sampleState1 false sampleGarmentB).state.activeAccessories = [] ∧
    (handleItemSelect apiConst sampleState1 false sampleGarmentB).calls =
      [.garmentTryOn sampleImgA sampleGarmentB] := by
  have h := C2_new_garment_truncates_and_appends apiConst sampleState1 sampleGarmentB
    sampleImgA sampleImgB (by decide) (by decide) (by decide) (by decide) rfl
  refine ⟨?_, ?_, h.2.2.2.2.1, ?_⟩
  · rw [h.1]; decide
  · rw [h.2.1]; decide
  · rw [h.2.2.2.2.2.2.1]

/-- **C4**.  `handlePoseSelect`: selecting while loading, on an empty
history, or re-selecting the current pose index is a no-op.  When the
chosen pose is cached in the current layer, no pose-generation call is
made and only the pose index is set (with the accessory overlay rebuilt
from the cached image when accessories are active).  When it is not
cached, `generatePoseVariation` is called on the first pose image of the
layer, the result is stored in the `poseImages` of the layer under the
pose instruction, and the pose index is set. -/
theorem C4_pose_select_spec (api : Api) (s : AppState) (newIndex : Nat)
    (layer : OutfitLayer) (cachedImg baseImg newImg : String) :
    (handlePoseSelect api s true newIndex = noopResult s) ∧
    ((s.garmentHistory.isEmpty = true ∨ newIndex = s.currentPoseIndex) →
      handlePoseSelect api s false newIndex = noopResult s) ∧
    (s.garmentHistory.isEmpty = false → newIndex ≠ s.currentPoseIndex →
     s.garmentHistory.get? s.currentGarmentIndex = some layer →
     truthyStr (lookupPose layer.poseImages (poseInstructionAt newIndex)) = some cachedImg →
       (∀ c ∈ (handlePoseSelect api s false newIndex).calls,
          ∀ bu pi, c ≠ ApiCall.poseVariation bu pi) ∧
       (handlePoseSelect api s false newIndex).state.currentPoseIndex = newIndex ∧
       (s.activeAccessories = [] →
         handlePoseSelect api s false newIndex =
           { state := { s with currentPoseIndex := newIndex },
             calls := [], error := none, isLoading := false, loadingMessage := "" }) ∧
       (s.activeAccessories ≠ [] →
         (handlePoseSelect api s false newIndex).calls =
           [ApiCall.accessoryTryOn cachedImg s.activeAccessories])) ∧
    (s.garmentHistory.isEmpty = false → newIndex ≠ s.currentPoseIndex →
     s.garmentHistory.get? s.currentGarmentIndex = some layer →
     truthyStr (lookupPose layer.poseImages (poseInstructionAt newIndex)) = none →
     truthyStr (firstPoseImage layer) = some baseImg →
     api (ApiCall.poseVariation baseImg (poseInstructionAt newIndex)) = .ok newImg →
       ApiCall.poseVariation baseImg (poseInstructionAt newIndex) ∈
         (handlePoseSelect api s false newIndex).calls ∧
       (handlePoseSelect api s false newIndex).state.currentPoseIndex = newIndex ∧
       (handlePoseSelect api s false newIndex).state.garmentHistory.get?
           s.currentGarmentIndex =
         some { layer with
           poseImages := setPose layer.poseImages (poseInstructionAt newIndex) newImg } ∧
       lookupPose (setPose layer.poseImages (poseInstructionAt newIndex) newImg)
         (poseInstructionAt newIndex) = some newImg) := by
  refine ⟨?_, ?_, ?_, ?_⟩
  · simp [handlePoseSelect]
  · intro hguard
    rcases hguard with hempty | heq
    · simp [handlePoseSelect, hempty]
    · simp [handlePoseSelect, heq]
  · intro hempty hne hlayer hcache
    have hbeq : (newIndex == s.currentPoseIndex) = false := by simpa using hne
    have hlayer2 : s.garmentHistory[s.currentGarmentIndex]? = some layer := by
      rw [← List.get?_eq_getElem?]; exact hlayer
    have hred : handlePoseSelect api s false newIndex =
        (if s.activeAccessories.isEmpty then
          { state := { s with currentPoseIndex := newIndex },
            calls := [], error := none, isLoading := false, loadingMessage := "" }
         else updateAccessoryLayer api { s with currentPoseIndex := newIndex }
           s.activeAccessories (some cachedImg)) := by
      simp [handlePoseSelect, hempty, hbeq, hlayer2, hcache]
    by_cases hacc : s.activeAccessories = []
    · have hie : s.activeAccessories.isEmpty = true := by simp [hacc]
      rw [hred, if_pos hie]
      refine ⟨by simp, rfl, fun _ => rfl, fun hc => absurd hacc hc⟩
    · have hie : s.activeAccessories.isEmpty = false := by
        cases hcc : s.activeAccessories with
        | nil => exact absurd hcc hacc
        | cons a l => rfl
      rw [hred, if_neg (by simp [hie])]
      have hcne : cachedImg ≠ "" := truthyStr_ne_empty hcache
      have hb : truthyStr ((some cachedImg).orElse
          (fun _ => accessoryBaseImage { s with currentPoseIndex := newIndex })) =
          some cachedImg := by
        simp [truthyStr, hcne]
      have hcalls := updateAccessoryLayer_calls api { s with currentPoseIndex := newIndex }
        s.activeAccessories (some cachedImg) cachedImg hb hacc
      have hpres := updateAccessoryLayer_preserves api { s with currentPoseIndex := newIndex }
        s.activeAccessories (some cachedImg)
      refine ⟨?_, ?_, fun hc => absurd hc hacc, fun _ => hcalls⟩
      · intro c hc bu pi
        rw [hcalls] at hc
        simp at hc
        simp [hc]
      · exact hpres.2.2.1
  · intro hempty hne hlayer hcache hfirst hapi
    have hbeq : (newIndex == s.currentPoseIndex) = false := by simpa using hne
    have hlayer2 : s.garmentHistory[s.currentGarmentIndex]? = some layer := by
      rw [← List.get?_eq_getElem?]; exact hlayer
    have hlt : s.currentGarmentIndex < s.garmentHistory.length := by
      rcases List.get?_eq_some.mp hlayer with ⟨h, _⟩
      exact h
    have hred : handlePoseSelect api s false newIndex =
        (if s.activeAccessories.isEmpty then
          { state := { s with
              garmentHistory := s.garmentHistory.set s.currentGarmentIndex
                { layer with
                  poseImages := setPose layer.poseImages (poseInstructionAt newIndex) newImg },
              currentPoseIndex := newIndex },
            calls := [ApiCall.poseVariation baseImg (poseInstructionAt newIndex)],
            error := none, isLoading := false, loadingMessage := "" }
         else
          (let r := updateAccessoryLayer api
            { s with
              garmentHistory := s.garmentHistory.set s.currentGarmentIndex
                { layer with
                  poseImages := setPose layer.poseImages (poseInstructionAt newIndex) newImg },
              currentPoseIndex := newIndex }
            s.activeAccessories (some newImg)
           { state := r.state,
             calls := ApiCall.poseVariation baseImg (poseInstructionAt newIndex) :: r.calls,
             error := r.error, isLoading := false, loadingMessage := "" })) := by
      simp [handlePoseSelect, hempty, hbeq, hlayer2, hcache, hfirst, hapi]
    have hget : (s.garmentHistory.set s.currentGarmentIndex
        { layer with
          poseImages := setPose layer.poseImages (poseInstructionAt newIndex) newImg }).get?
          s.currentGarmentIndex =
        some { layer with
          poseImages := setPose layer.poseImages (poseInstructionAt newIndex) newImg } := by
      rw [List.get?_eq_getElem?]
      exact List.getElem?_set_eq_of_lt _ hlt
    by_cases hacc : s.activeAccessories = []
    · have hie : s.activeAccessories.isEmpty = true := by simp [hacc]
      rw [hred, if_pos hie]
      exact ⟨by simp, rfl, hget, lookupPose_setPose _ _ _⟩
    · have hie : s.activeAccessories.isEmpty = false := by
        cases hcc : s.activeAccessories with
        | nil => exact absurd hcc hacc
        | cons a l => rfl
      rw [hred, if_neg (by simp [hie])]
      have hpres := updateAccessoryLayer_preserves api
        { s with
          garmentHistory := s.garmentHistory.set s.currentGarmentIndex
            { layer with
              poseImages := setPose layer.poseImages (poseInstructionAt newIndex) newImg },
          currentPoseIndex := newIndex }
        s.activeAccessories (some newImg)
      refine ⟨by simp, hpres.2.2.1, ?_, lookupPose_setPose _ _ _⟩
      show (updateAccessoryLayer _ _ _ _).state.garmentHistory.get? _ = _
      rw [hpres.1]
      exact hget

/-- Witness for C4: selecting pose 1 while loading is a no-op, and
selecting the uncached pose 1 on the garment layer issues the
pose-variation call and sets the pose index. -/
theorem C4_witness :
    handlePoseSelect apiConst sampleState1 true 1 = noopResult sampleState1 ∧
    ApiCall.poseVariation sampleImgA "Slightly turned, 3/4 view" ∈
      (handlePoseSelect apiConst sampleState1 false 1).calls ∧
    (handlePoseSelect apiConst sampleState1 false 1).state.currentPoseIndex = 1 := by
  have h := C4_pose_select_spec apiConst sampleState1 1 sampleLayerA ("") sampleImgA sampleImgB
  have hu := h.2.2.2 (by decide) (by decide) (by decide) (by decide) (by decide) rfl
  refine ⟨h.1, ?_, hu.2.1⟩
  have hp : poseInstructionAt 1 = "Slightly turned, 3/4 view" := rfl
  have hm := hu.1
  rw [hp] at hm
  exact hm

/-- **C5**.  Every failing generation call is catch-and-display only:
the garment try-on, pose variation and accessory overlay handlers leave
the `AppState` exactly as it was, store the friendly message in the
error state, and clear the loading flag and message in `finally`. -/
theorem C5_failure_leaves_state_untouched (api : Api) (s : AppState)
    (itemInfo : WardrobeItem) (accessories : List WardrobeItem)
    (ov : Option String) (layer : OutfitLayer) (b baseImg e : String) (newIndex : Nat) :
    (truthyStr (baseGarmentImage s) = some b → itemInfo.type = "garment" →
     nextLayerMatches s itemInfo = false →
     api (ApiCall.garmentTryOn b itemInfo) = .error e →
       handleItemSelect api s false itemInfo =
         { state := s, calls := [ApiCall.garmentTryOn b itemInfo],
           error := some (getFriendlyErrorMessage e ("Failed to apply item")),
           isLoading := false, loadingMessage := "" }) ∧
    (s.garmentHistory.isEmpty = false → newIndex ≠ s.currentPoseIndex →
     s.garmentHistory.get? s.currentGarmentIndex = some layer →
     truthyStr (lookupPose layer.poseImages (poseInstructionAt newIndex)) = none →
     truthyStr (firstPoseImage layer) = some baseImg →
     api (ApiCall.poseVariation baseImg (poseInstructionAt newIndex)) = .error e →
       handlePoseSelect api s false newIndex =
         { state := s, calls := [ApiCall.poseVariation baseImg (poseInstructionAt newIndex)],
           error := some (getFriendlyErrorMessage e ("Failed to change pose")),
           isLoading := false, loadingMessage := "" }) ∧
    (truthyStr (ov.orElse (fun _ => accessoryBaseImage s)) = some baseImg →
     accessories ≠ [] →
     api (ApiCall.accessoryTryOn baseImg accessories) = .error e →
       updateAccessoryLayer api s accessories ov =
         { state := s, calls := [ApiCall.accessoryTryOn baseImg accessories],
           error := some (getFriendlyErrorMessage e ("Failed to apply accessories")),
           isLoading := false, loadingMessage := "" }) := by
  refine ⟨?_, ?_, ?_⟩
  · intro hbase hg hnext hapi
    simp [handleItemSelect, hbase, hg, hnext, hapi]
  · intro hempty hne hlayer hcache hfirst hapi
    have hbeq : (newIndex == s.currentPoseIndex) = false := by simpa using hne
    have hlayer2 : s.garmentHistory[s.currentGarmentIndex]? = some layer := by
      rw [← List.get?_eq_getElem?]; exact hlayer
    simp [handlePoseSelect, hempty, hbeq, hlayer2, hcache, hfirst, hapi]
  · intro hb hacc hapi
    have hie : accessories.isEmpty = false := by
      cases accessories with
      | nil => exact absurd rfl hacc
      | cons a l => rfl
    simp [updateAccessoryLayer, hb, hie, hapi]

/-- Witness for C5: with a failing oracle, adding a garment, changing
pose and styling an accessory each leave the state untouched and only
set the error banner. -/
theorem C5_witness :
    handleItemSelect apiFail sampleState1 false sampleGarmentB =
      { state := sampleState1, calls := [ApiCall.garmentTryOn sampleImgA sampleGarmentB],
        error := some ("Failed to apply item: quota exceeded"),
        isLoading := false, loadingMessage := "" } ∧
    handlePoseSelect apiFail sampleState1 false 1 =
      { state := sampleState1,
        calls := [ApiCall.poseVariation sampleImgA "Slightly turned, 3/4 view"],
        error := some ("Failed to change pose: quota exceeded"),
        isLoading := false, loadingMessage := "" } ∧
    updateAccessoryLayer apiFail sampleState1 [sampleAccessoryA] none =
      { state := sampleState1,
        calls := [ApiCall.accessoryTryOn sampleImgA [sampleAccessoryA]],
        error := some ("Failed to apply accessories: quota exceeded"),
        isLoading := false, loadingMessage := "" } := by
  have h := C5_failure_leaves_state_untouched apiFail sampleState1 sampleGarmentB
    [sampleAccessoryA] none sampleLayerA sampleImgA sampleImgA ("quota exceeded") 1
  refine ⟨?_, ?_, ?_⟩
  · have h1 := h.1 (by decide) (by decide) (by decide) rfl
    simpa [getFriendlyErrorMessage] using h1
  · have h2 := h.2.1 (by decide) (by decide) (by decide) (by decide) (by decide) rfl
    have hp : poseInstructionAt 1 = "Slightly turned, 3/4 view" := rfl
    rw [hp] at h2
    simpa [getFriendlyErrorMessage] using h2
  · have h3 := h.2.2 (by decide) (by decide) rfl
    simpa [getFriendlyErrorMessage] using h3

/-- **C6**.  Saving (permitted only with at least one garment beyond the
base or one active accessory) and then loading an outfit round-trips the
composition: the model image, the sequence of garment items and the
active accessories come back equal, the garment index points at the last
loaded layer, the pose index is 0, and each loaded layer carries exactly
its single saved pose image under the first pose instruction. -/
theorem C6_save_load_roundtrip (s : AppState) (o : SavedOutfit)
    (hci : s.currentGarmentIndex < s.garmentHistory.length)
    (himgs : ∀ l ∈ activeGarmentLayers s, (firstPoseImage l).isSome = true)
    (hsave : handleSaveOutfit s = some o) :
    (0 < s.currentGarmentIndex ∨ s.activeAccessories ≠ []) ∧
    (handleLoadOutfit o).modelImageUrl = s.modelImageUrl ∧
    (handleLoadOutfit o).garmentHistory.map (fun l => l.item) =
      (activeGarmentLayers s).map (fun l => l.item) ∧
    (handleLoadOutfit o).activeAccessories = s.activeAccessories ∧
    (handleLoadOutfit o).currentGarmentIndex = s.currentGarmentIndex ∧
    (handleLoadOutfit o).currentPoseIndex = 0 ∧
    (∀ i l, (activeGarmentLayers s).get? i = some l →
       (handleLoadOutfit o).garmentHistory.get? i =
         some { item := l.item,
                poseImages :=
                  [(POSE_INSTRUCTIONS.headD (""), (firstPoseImage l).getD (""))] }) := by
  simp only [handleSaveOutfit] at hsave
  cases hm : truthyStr s.modelImageUrl with
  | none => rw [hm] at hsave; simp at hsave
  | some model =>
  cases hd : truthyStr (displayImageUrl s) with
  | none => rw [hm, hd] at hsave; simp at hsave
  | some thumb =>
  rw [hm, hd] at hsave
  dsimp only at hsave
  by_cases hg : (s.currentGarmentIndex == 0 && s.activeAccessories.isEmpty) = true
  · rw [if_pos hg] at hsave; exact absurd hsave (by simp)
  · rw [if_neg hg] at hsave
    injection hsave with ho
    subst ho
    refine ⟨?_, ?_, ?_, rfl, ?_, rfl, ?_⟩
    · simp only [Bool.and_eq_true, beq_iff_eq, List.isEmpty_iff, not_and] at hg
      rcases Nat.eq_zero_or_pos s.currentGarmentIndex with h0 | h0
      · exact Or.inr (hg h0)
      · exact Or.inl h0
    · exact (truthyStr_eq_some hm).symm
    · simp [handleLoadOutfit, List.map_map]
    · have hlen : (activeGarmentLayers s).length = s.currentGarmentIndex + 1 := by
        simp only [activeGarmentLayers, List.length_take]
        exact Nat.min_eq_left (Nat.succ_le_of_lt hci)
      simp [handleLoadOutfit, hlen]
    · intro i l hil
      obtain ⟨u, hu⟩ := Option.isSome_iff_exists.mp (himgs l (List.get?_mem hil))
      simp only [handleLoadOutfit, List.map_map, List.get?_map, hil, Option.map_some']
      simp [Function.comp, hu]

/-- Witness for C6 on a one-garment outfit: saving from the garment
layer and loading the record restores the composition. -/
theorem C6_witness :
    ∃ o : SavedOutfit, handleSaveOutfit sampleState1 = some o ∧
      (handleLoadOutfit o).modelImageUrl = sampleState1.modelImageUrl ∧
      (handleLoadOutfit o).garmentHistory.map (fun l => l.item) =
        [none, some sampleGarmentA] ∧
      (handleLoadOutfit o).currentGarmentIndex = 1 ∧
      (handleLoadOutfit o).currentPoseIndex = 0 := by
  refine ⟨sampleSavedOutfit, ?_, ?_⟩
  · decide
  · have h := C6_save_load_roundtrip sampleState1 sampleSavedOutfit
      (by decide) (by decide) (by decide)
    refine ⟨h.2.1, ?_, ?_, h.2.2.2.2.2.1⟩
    · rw [h.2.2.1]; decide
    · rw [h.2.2.2.2.1]; decide

theorem chainTryOnImages_length (api : Api) :
    ∀ (items : List WardrobeItem) (imgs : List String) (base : String),
      chainTryOnImages api base items = .ok imgs → imgs.length = items.length := by
  intro items
  induction items with
  | nil =>
      intro imgs base h
      simp only [chainTryOnImages] at h
      injection h with h
      subst h
      rfl
  | cons it its ih =>
      intro imgs base h
      simp only [chainTryOnImages] at h
      cases hapi : api (ApiCall.garmentTryOn base it) with
      | error e => rw [hapi] at h; exact absurd h (by simp)
      | ok img =>
          rw [hapi] at h
          dsimp only at h
          cases hch : chainTryOnImages api img its with
          | error e => rw [hch] at h; exact absurd h (by simp [Except.map])
          | ok imgs' =>
              rw [hch] at h
              simp only [Except.map] at h
              injection h with h
              subst h
              simp [ih imgs' img hch]

theorem regenerateLayers_eq_chain (api : Api) :
    ∀ (layers : List OutfitLayer) (items : List WardrobeItem) (imgs : List String)
      (base : String),
      layers.map (fun l => l.item) = items.map some →
      chainTryOnImages api base items = .ok imgs →
      regenerateLayers api base layers =
        (List.zipWith (fun b it => ApiCall.garmentTryOn b it) (base :: imgs) items,
         .ok (List.zipWith (fun it img =>
            ({ item := some it,
               poseImages := [(POSE_INSTRUCTIONS.headD (""), img)] } : OutfitLayer)) items imgs,
          imgs.getLastD base)) := by
  intro layers
  induction layers with
  | nil =>
      intro items imgs base hmap hch
      cases items with
      | cons it its => simp at hmap
      | nil =>
          simp only [chainTryOnImages] at hch
          injection hch with hch
          subst hch
          simp [regenerateLayers]
  | cons l rest ih =>
      intro items imgs base hmap hch
      cases items with
      | nil => simp at hmap
      | cons it its =>
          simp only [List.map_cons, List.cons.injEq] at hmap
          obtain ⟨hitem, hrest⟩ := hmap
          simp only [chainTryOnImages] at hch
          cases hapi : api (ApiCall.garmentTryOn base it) with
          | error e => rw [hapi] at hch; exact absurd hch (by simp)
          | ok img =>
              rw [hapi] at hch
              dsimp only at hch
              cases hch2 : chainTryOnImages api img its with
              | error e => rw [hch2] at hch; exact absurd hch (by simp [Except.map])
              | ok imgs' =>
                  rw [hch2] at hch
                  simp only [Except.map] at hch
                  injection hch with hch
                  subst hch
                  have hrec := ih its imgs' img hrest hch2
                  simp only [regenerateLayers, hitem, hapi, hrec]
                  simp only [Except.map, List.zipWith_cons_cons, List.getLastD_cons]

/-- **C8**.  `handleReorderGarments`: when the reordered id sequence
equals the current one it is a no-op with no calls; otherwise, when
every try-on in the chain starting from the model image succeeds (each
call consuming the previously generated image, in the new order), the
garment branch is replaced by the regenerated layers with the garment
index on the last layer and pose index 0, and (with no active
accessories) the issued calls are exactly that chain. -/
theorem C8_reorder_spec (api : Api) (s : AppState) (reorderedItems : List OutfitLayer)
    (baseLayer : OutfitLayer) (m : String) (items : List WardrobeItem)
    (imgs : List String) :
    (s.garmentHistory.head? = some baseLayer →
     (baseLayer :: reorderedItems).map (fun l => l.item.map (fun it => it.id)) =
       s.garmentHistory.map (fun l => l.item.map (fun it => it.id)) →
       handleReorderGarments api s reorderedItems = noopResult s) ∧
    (s.garmentHistory.head? = some baseLayer →
     (baseLayer :: reorderedItems).map (fun l => l.item.map (fun it => it.id)) ≠
       s.garmentHistory.map (fun l => l.item.map (fun it => it.id)) →
     s.modelImageUrl = some m →
     reorderedItems.map (fun l => l.item) = items.map some →
     chainTryOnImages api m items = .ok imgs →
       (handleReorderGarments api s reorderedItems).state.garmentHistory =
         baseLayer :: List.zipWith (fun it img =>
           ({ item := some it,
              poseImages := [(POSE_INSTRUCTIONS.headD (""), img)] } : OutfitLayer)) items imgs ∧
       (handleReorderGarments api s reorderedItems).state.currentGarmentIndex =
         items.length ∧
       (handleReorderGarments api s reorderedItems).state.currentPoseIndex = 0 ∧
       (s.activeAccessories = [] →
         (handleReorderGarments api s reorderedItems).calls =
           List.zipWith (fun b it => ApiCall.garmentTryOn b it) (m :: imgs) items ∧
         (handleReorderGarments api s reorderedItems).error = none)) := by
  constructor
  · intro hhead heq
    simp [handleReorderGarments, hhead]
    intro hcon
    exact absurd (by simpa using heq) hcon
  · intro hhead hne hm hmap hch
    have hrec := regenerateLayers_eq_chain api reorderedItems items imgs m hmap hch
    have hlen2 : imgs.length = items.length := chainTryOnImages_length api items imgs m hch
    have hzlen : (List.zipWith (fun it img =>
        ({ item := some it,
           poseImages := [(POSE_INSTRUCTIONS.headD (""), img)] } : OutfitLayer)) items imgs).length =
        items.length := by
      rw [List.length_zipWith, chainTryOnImages_length api items imgs m hch]
      exact Nat.min_self _
    have hred : handleReorderGarments api s reorderedItems =
        (if s.activeAccessories.isEmpty then
          { state := { s with
              garmentHistory := baseLayer :: List.zipWith (fun it img =>
                ({ item := some it,
                   poseImages := [(POSE_INSTRUCTIONS.headD (""), img)] } : OutfitLayer)) items imgs,
              currentGarmentIndex := (baseLayer :: List.zipWith (fun it img =>
                ({ item := some it,
                   poseImages := [(POSE_INSTRUCTIONS.headD (""), img)] } : OutfitLayer)) items imgs).length - 1,
              currentPoseIndex := 0 },
            calls := List.zipWith (fun b it => ApiCall.garmentTryOn b it) (m :: imgs) items,
            error := none, isLoading := false, loadingMessage := "" }
         else
          (let r := updateAccessoryLayer api
            { s with
              garmentHistory := baseLayer :: List.zipWith (fun it img =>
                ({ item := some it,
                   poseImages := [(POSE_INSTRUCTIONS.headD (""), img)] } : OutfitLayer)) items imgs,
              currentGarmentIndex := (baseLayer :: List.zipWith (fun it img =>
                ({ item := some it,
                   poseImages := [(POSE_INSTRUCTIONS.headD (""), img)] } : OutfitLayer)) items imgs).length - 1,
              currentPoseIndex := 0 }
            s.activeAccessories (some (imgs.getLastD m))
           { state := r.state,
             calls := List.zipWith (fun b it => ApiCall.garmentTryOn b it) (m :: imgs) items ++ r.calls,
             error := r.error, isLoading := false, loadingMessage := "" })) := by
      simp [handleReorderGarments, hhead, hm, hrec]
      intro hcon
      exact absurd hcon (by simpa using hne)
    by_cases hacc : s.activeAccessories = []
    · have hie : s.activeAccessories.isEmpty = true := by simp [hacc]
      rw [hred, if_pos hie]
      refine ⟨rfl, ?_, rfl, fun _ => ⟨rfl, rfl⟩⟩
      simp [hzlen]
      exact hlen2.ge
    · have hie : s.activeAccessories.isEmpty = false := by
        cases hcc : s.activeAccessories with
        | nil => exact absurd hcc hacc
        | cons a l => rfl
      rw [hred, if_neg (by simp [hie])]
      have hpres := updateAccessoryLayer_preserves api
        { s with
          garmentHistory := baseLayer :: List.zipWith (fun it img =>
            ({ item := some it,
               poseImages := [(POSE_INSTRUCTIONS.headD (""), img)] } : OutfitLayer)) items imgs,
          currentGarmentIndex := (baseLayer :: List.zipWith (fun it img =>
            ({ item := some it,
               poseImages := [(POSE_INSTRUCTIONS.headD (""), img)] } : OutfitLayer)) items imgs).length - 1,
          currentPoseIndex := 0 }
        s.activeAccessories (some (imgs.getLastD m))
      refine ⟨?_, ?_, ?_, fun hc => absurd hc hacc⟩
      · rw [hpres.1]
      · rw [hpres.2.1]
        simp [hzlen]
        exact hlen2.ge
      · rw [hpres.2.2.1]

/-- Witness for C8: with two garments stacked, re-dragging them into
the same order is a no-op, and swapping them regenerates both layers in
the new order from the model image. -/
theorem C8_witness :
    handleReorderGarments apiConst sampleState2 [sampleLayerA, sampleLayerB] =
      noopResult sampleState2 ∧
    (handleReorderGarments apiConst sampleState2 [sampleLayerB, sampleLayerA]).state.garmentHistory =
      [sampleBaseLayer,
       { item := some sampleGarmentB,
         poseImages := [("Full frontal view, hands on hips", sampleImgB)] },
       { item := some sampleGarmentA,
         poseImages := [("Full frontal view, hands on hips", sampleImgB)] }] ∧
    (handleReorderGarments apiConst sampleState2 [sampleLayerB, sampleLayerA]).state.currentGarmentIndex = 2 ∧
    (handleReorderGarments apiConst sampleState2 [sampleLayerB, sampleLayerA]).calls =
      [ApiCall.garmentTryOn sampleModelUrl sampleGarmentB,
       ApiCall.garmentTryOn sampleImgB sampleGarmentA] := by
  have h := C8_reorder_spec apiConst sampleState2 [sampleLayerB, sampleLayerA]
    sampleBaseLayer sampleModelUrl [sampleGarmentB, sampleGarmentA] [sampleImgB, sampleImgB]
  have hno := (C8_reorder_spec apiConst sampleState2 [sampleLayerA, sampleLayerB]
    sampleBaseLayer sampleModelUrl [sampleGarmentA, sampleGarmentB] [sampleImgB, sampleImgB]).1
    (by decide) (by decide)
  have hgen := h.2 (by decide) (by decide) (by decide) (by decide) rfl
  refine ⟨hno, ?_, ?_, ?_⟩
  · rw [hgen.1]; decide
  · rw [hgen.2.1]; decide
  · rw [(hgen.2.2.2 (by decide)).1]; decide

theorem scanCandidates_append (l1 l2 : List Candidate)
    (h : ∀ c ∈ l1, candidateImage c = none) :
    scanCandidates (l1 ++ l2) = scanCandidates l2 := by
  induction l1 with
  | nil => rfl
  | cons c rest ih =>
      simp only [List.cons_append, scanCandidates]
      rw [h c (by simp)]
      exact ih (fun c' hc' => h c' (by simp [hc']))

theorem scanCandidates_eq_some {l : List Candidate} {d : InlineData}
    (h : scanCandidates l = some d) : ∃ c ∈ l, candidateImage c = some d := by
  induction l with
  | nil => simp [scanCandidates] at h
  | cons c rest ih =>
      simp only [scanCandidates] at h
      cases hc : candidateImage c with
      | some d2 =>
          rw [hc] at h
          dsimp only at h
          injection h with h
          subst h
          exact ⟨c, by simp, hc⟩
      | none =>
          rw [hc] at h
          dsimp only at h
          obtain ⟨c2, hc2, hd⟩ := ih h
          exact ⟨c2, by simp [hc2], hd⟩

theorem scanCandidates_eq_none {l : List Candidate}
    (h : ∀ c ∈ l, candidateImage c = none) : scanCandidates l = none := by
  induction l with
  | nil => rfl
  | cons c rest ih =>
      simp only [scanCandidates]
      rw [h c (by simp)]
      exact ih (fun c' hc' => h c' (by simp [hc']))

/-- **C9**.  `handleApiResponse` throws whenever the response carries a
(truthy) `promptFeedback.blockReason`, even when an image part is
present; otherwise it returns the data URL of the first `inlineData`
part found scanning candidates in order; when no candidate carries an
image part it always throws — with the finish-reason message when
`finishReason` is truthy and differs from STOP, and the generic
no-image message otherwise — so a non-throwing run always returns an
image data URL. -/
theorem C9_handleApiResponse_spec (response : GenResponse) (d : InlineData)
    (br fr u : String) (l1 l2 : List Candidate) (c : Candidate) :
    (truthyStr (response.promptFeedback.bind (fun pf => pf.blockReason)) = some br →
       ∃ e, handleApiResponse response = .error e) ∧
    (truthyStr (response.promptFeedback.bind (fun pf => pf.blockReason)) = none →
     response.candidates = some (l1 ++ c :: l2) →
     (∀ c2 ∈ l1, candidateImage c2 = none) →
     candidateImage c = some d →
       handleApiResponse response = .ok (inlineDataUrl d)) ∧
    (truthyStr (response.promptFeedback.bind (fun pf => pf.blockReason)) = none →
     (∀ c2 ∈ response.candidates.getD [], candidateImage c2 = none) →
       (∃ e, handleApiResponse response = .error e) ∧
       (truthyStr ((response.candidates.bind (fun cs => cs.head?)).bind
           (fun c2 => c2.finishReason)) = some fr → fr ≠ "STOP" →
         handleApiResponse response =
           .error ("Image generation stopped unexpectedly. Reason: " ++ fr ++
             ". This often relates to safety settings.")) ∧
       (truthyStr ((response.candidates.bind (fun cs => cs.head?)).bind
           (fun c2 => c2.finishReason)) = none →
         handleApiResponse response =
           .error (handleApiResponse.noImageMessage response)) ∧
       (truthyStr ((response.candidates.bind (fun cs => cs.head?)).bind
           (fun c2 => c2.finishReason)) = some ("STOP") →
         handleApiResponse response =
           .error (handleApiResponse.noImageMessage response))) ∧
    (handleApiResponse response = .ok u →
       ∃ c2 ∈ response.candidates.getD [], ∃ d2, candidateImage c2 = some d2 ∧
         u = inlineDataUrl d2) := by
  refine ⟨?_, ?_, ?_, ?_⟩
  · intro hbr
    simp only [handleApiResponse, hbr]
    exact ⟨_, rfl⟩
  · intro hbr hcand hl1 hc
    have hscan : scanCandidates (response.candidates.getD []) = some d := by
      rw [hcand]
      show scanCandidates (l1 ++ c :: l2) = some d
      rw [scanCandidates_append l1 (c :: l2) hl1]
      simp only [scanCandidates, hc]
    simp only [handleApiResponse, hbr, hscan]
  · intro hbr hnone
    have hscan : scanCandidates (response.candidates.getD []) = none :=
      scanCandidates_eq_none hnone
    refine ⟨?_, ?_, ?_, ?_⟩
    · simp only [handleApiResponse, hbr, hscan]
      cases hfr : truthyStr ((response.candidates.bind (fun cs => cs.head?)).bind
          (fun c2 => c2.finishReason)) with
      | none => exact ⟨_, rfl⟩
      | some fr2 =>
          dsimp only
          by_cases hstop : (fr2 != "STOP") = true
          · rw [if_pos hstop]; exact ⟨_, rfl⟩
          · rw [if_neg hstop]; exact ⟨_, rfl⟩
    · intro hfr hne
      have hne2 : (fr != "STOP") = true := by simpa using hne
      simp only [handleApiResponse, hbr, hscan, hfr, hne2, if_true]
    · intro hfr
      simp only [handleApiResponse, hbr, hscan, hfr]
    · intro hfr
      simp only [handleApiResponse, hbr, hscan, hfr]
      rw [if_neg (by simp)]
  · intro hu
    simp only [handleApiResponse] at hu
    cases hbr : truthyStr (response.promptFeedback.bind (fun pf => pf.blockReason)) with
    | some br2 => rw [hbr] at hu; exact absurd hu (by simp)
    | none =>
        rw [hbr] at hu
        dsimp only at hu
        cases hscan : scanCandidates (response.candidates.getD []) with
        | some d2 =>
            rw [hscan] at hu
            dsimp only at hu
            injection hu with hu
            obtain ⟨c2, hc2, hd2⟩ := scanCandidates_eq_some hscan
            exact ⟨c2, hc2, d2, hd2, hu.symm⟩
        | none =>
            rw [hscan] at hu
            dsimp only at hu
            cases hfr : truthyStr ((response.candidates.bind (fun cs => cs.head?)).bind
                (fun c2 => c2.finishReason)) with
            | some fr2 =>
                rw [hfr] at hu
                dsimp only at hu
                by_cases hstop : (fr2 != "STOP") = true
                · rw [if_pos hstop] at hu; exact absurd hu (by simp)
                · rw [if_neg hstop] at hu; exact absurd hu (by simp)
            | none =>
                rw [hfr] at hu
                dsimp only at hu
                exact absurd hu (by simp)

/-- Witness for C9: a blocked response throws despite the cached image
part; an unblocked response returns the data URL of the image found in
the second candidate; an image-less response with finish reason
IMAGE_SAFETY throws the finish-reason message. -/
theorem C9_witness :
    (∃ e, handleApiResponse sampleRespBlocked = .error e) ∧
    handleApiResponse sampleRespImage = .ok ("data:image/png;base64,QUFB") ∧
    handleApiResponse sampleRespNoImage =
      .error ("Image generation stopped unexpectedly. Reason: IMAGE_SAFETY. This often relates to safety settings.") := by
  have h1 := (C9_handleApiResponse_spec sampleRespBlocked sampleInline ("SAFETY") ("") ("")
    [] [] sampleCandidateImg).1 (by decide)
  have h2 := (C9_handleApiResponse_spec sampleRespImage sampleInline ("") ("") ("")
    [sampleCandidateNoImg] [] sampleCandidateImg).2.1 (by decide) (by decide)
    (by decide) (by decide)
  have h3 := ((C9_handleApiResponse_spec sampleRespNoImage sampleInline ("") ("IMAGE_SAFETY") ("")
    [] [] sampleCandidateImg).2.2.1 (by decide) (by decide)).2.1 (by decide) (by decide)
  refine ⟨h1, ?_, ?_⟩
  · rw [h2]; rfl
  · rw [h3]
    exact congrArg Except.error (by decide)

/-- **C10**.  Accessory selection toggles: selecting an active accessory
removes it from `activeAccessories` (and when the list becomes empty,
the overlay is cleared with no API call); selecting an inactive one
appends it and regenerates the overlay.  Garment re-selection is not a
toggle: the wardrobe panel swallows the click on an already-active
garment. -/
theorem C10_accessory_toggle_spec (api : Api) (s : AppState)
    (itemInfo : WardrobeItem) (b b2 img : String) :
    (truthyStr (baseGarmentImage s) = some b →
     itemInfo.type = "accessory" →
     s.activeAccessories.any (fun acc => acc.id == itemInfo.id) = true →
       (s.activeAccessories.filter (fun acc => acc.id != itemInfo.id) = [] →
        truthyStr (accessoryBaseImage s) = some b2 →
          handleItemSelect api s false itemInfo =
            { state := { s with generatedAccessoryImageUrl := none, activeAccessories := [] },
              calls := [], error := none, isLoading := false, loadingMessage := "" }) ∧
       (s.activeAccessories.filter (fun acc => acc.id != itemInfo.id) ≠ [] →
        truthyStr (accessoryBaseImage s) = some b2 →
        api (ApiCall.accessoryTryOn b2
          (s.activeAccessories.filter (fun acc => acc.id != itemInfo.id))) = .ok img →
          (handleItemSelect api s false itemInfo).state.activeAccessories =
            s.activeAccessories.filter (fun acc => acc.id != itemInfo.id) ∧
          (handleItemSelect api s false itemInfo).state.generatedAccessoryImageUrl =
            some img ∧
          (handleItemSelect api s false itemInfo).calls =
            [ApiCall.accessoryTryOn b2
              (s.activeAccessories.filter (fun acc => acc.id != itemInfo.id))])) ∧
    (truthyStr (baseGarmentImage s) = some b →
     itemInfo.type = "accessory" →
     s.activeAccessories.any (fun acc => acc.id == itemInfo.id) = false →
     truthyStr (accessoryBaseImage s) = some b2 →
     api (ApiCall.accessoryTryOn b2 (s.activeAccessories ++ [itemInfo])) = .ok img →
       (handleItemSelect api s false itemInfo).state.activeAccessories =
         s.activeAccessories ++ [itemInfo] ∧
       (handleItemSelect api s false itemInfo).state.generatedAccessoryImageUrl =
         some img ∧
       (handleItemSelect api s false itemInfo).calls =
         [ApiCall.accessoryTryOn b2 (s.activeAccessories ++ [itemInfo])]) ∧
    (∀ activeItemIds : List String, itemInfo.type = "garment" →
       activeItemIds.contains itemInfo.id = true →
       handleItemClick false activeItemIds itemInfo = none) := by
  refine ⟨?_, ?_, ?_⟩
  · intro hbase hty hany
    have htyg : (itemInfo.type == "garment") = false := by simp [hty]
    constructor
    · intro hfil hb2
      have hred : handleItemSelect api s false itemInfo =
          updateAccessoryLayer api s
            (s.activeAccessories.filter (fun acc => acc.id != itemInfo.id)) none := by
        simp [handleItemSelect, hbase, htyg, hany]
      rw [hred, hfil]
      simp [updateAccessoryLayer, Option.none_orElse, hb2]
    · intro hfil hb2 hapi
      have hred : handleItemSelect api s false itemInfo =
          updateAccessoryLayer api s
            (s.activeAccessories.filter (fun acc => acc.id != itemInfo.id)) none := by
        simp [handleItemSelect, hbase, htyg, hany]
      have hie : (s.activeAccessories.filter (fun acc => acc.id != itemInfo.id)).isEmpty = false := by
        cases hcc : s.activeAccessories.filter (fun acc => acc.id != itemInfo.id) with
        | nil => exact absurd hcc hfil
        | cons a l => rfl
      rw [hred]
      simp [updateAccessoryLayer, Option.none_orElse, hb2, hie, hapi]
  · intro hbase hty hany hb2 hapi
    have htyg : (itemInfo.type == "garment") = false := by simp [hty]
    have hred : handleItemSelect api s false itemInfo =
        updateAccessoryLayer api s (s.activeAccessories ++ [itemInfo]) none := by
      simp [handleItemSelect, hbase, htyg, hany]
    have hie : (s.activeAccessories ++ [itemInfo]).isEmpty = false := by
      cases hcc : s.activeAccessories ++ [itemInfo] with
      | nil => exact absurd hcc (by simp)
      | cons a l => rfl
    rw [hred]
    simp [updateAccessoryLayer, Option.none_orElse, hb2, hie, hapi]
  · intro activeItemIds hty hmem
    simp [handleItemClick, hty, hmem]
    simpa using hmem

/-- Witness for C10: toggling the active beanie off clears the overlay
with no call, adding the sunglasses appends them and regenerates the
overlay, and clicking the already-worn garment in the wardrobe panel is
swallowed. -/
theorem C10_witness :
    handleItemSelect apiFail sampleState1Acc false sampleAccessoryA =
      { state := { sampleState1Acc with
          generatedAccessoryImageUrl := none, activeAccessories := [] },
        calls := [], error := none, isLoading := false, loadingMessage := "" } ∧
    (handleItemSelect apiConst sampleState1Acc false sampleAccessoryB).state.activeAccessories =
      [sampleAccessoryA, sampleAccessoryB] ∧
    (handleItemSelect apiConst sampleState1Acc false sampleAccessoryB).state.generatedAccessoryImageUrl =
      some sampleImgB ∧
    handleItemClick false ["gemini-sweat"] sampleGarmentA = none := by
  have h1 := (C10_accessory_toggle_spec apiFail sampleState1Acc sampleAccessoryA
    sampleImgA sampleImgA sampleImgB).1 (by decide) (by decide) (by decide)
  have h2 := (C10_accessory_toggle_spec apiConst sampleState1Acc sampleAccessoryB
    sampleImgA sampleImgA sampleImgB).2.1 (by decide) (by decide) (by decide) (by decide) rfl
  have h3 := (C10_accessory_toggle_spec apiConst sampleState1Acc sampleGarmentA
    sampleImgA sampleImgA sampleImgB).2.2 ["gemini-sweat"] (by decide) (by decide)
  refine ⟨?_, ?_, h2.2.1, h3⟩
  · have := h1.1 (by decide) (by decide)
    simpa using this
  · rw [h2.1]; decide

end FitCheck
